import Mathlib

/-!
Shallow embedding of the diagnostic rendering layer in `src/tls_debug.rs` of
the `tls-parser` crate, together with proofs about the text it produces.

Modelling conventions:
* Machine integers (`u8`, `u16`, `u32`) are embedded as `Nat`; the theorems
  carry the range bounds (`< 256`, `< 65536`) where they matter.
* Byte slices (`&[u8]`) are embedded as `List Nat`.
* The enumeration registries (`TlsCipherSuite::from_id`,
  `SignatureScheme::from_u16`, `NamedGroup::from_u16`,
  `HashAlgorithm::from_u8`, `SignAlgorithm::from_u8`,
  `TlsAlertSeverity::from_u8`) live in other modules of the crate; the
  renderers here consume them as injected lookup functions of type
  `Nat → Option String` returning the symbolic (Debug) name of the code, or
  `none` when the code is absent from the registry.
* The standard-library formatting conventions used by the source are embedded
  explicitly: Rust `Debug` for a slice of integers prints a bracketed decimal
  comma-separated list, `Debug` for `Option` prints `None` / `Some(..)`,
  `Debug` for `str` prints the text between double quotes with escapes, and
  `Formatter::debug_struct` prints `Name { field: value, ... }`.
Every renderer is a total Lean function, so the "never fails" part of the
specification holds by construction.
-/

namespace TlsDebug

/-- Lowercase hexadecimal digit character, as produced by the Rust `{:x}`,
`{:02x}` and `{:04x}` format specifiers for digit value `n < 16`. -/
def hexDigit (n : Nat) : Char :=
  if n < 10 then Char.ofNat (48 + n) else Char.ofNat (87 + n)

/-- Numeric value of a lowercase hexadecimal digit character (left inverse of
`hexDigit` on digit values). -/
def hexDigitVal (c : Char) : Nat :=
  if 97 ≤ c.toNat then c.toNat - 87 else c.toNat - 48

/-- Predicate: `c` is a lowercase hexadecimal digit character. -/
def isLowerHexDigit (c : Char) : Bool :=
  (48 ≤ c.toNat && c.toNat ≤ 57) || (97 ≤ c.toNat && c.toNat ≤ 102)

/-- Positional value of a string of hexadecimal digit characters. -/
def hexValL : List Char → Nat
  | [] => 0
  | c :: t => hexDigitVal c * 16 ^ t.length + hexValL t

/-- Rust `format!("{:02x}", b)` on a byte `b < 256`: exactly two zero-padded
lowercase hex digits. -/
def hex2 (n : Nat) : String :=
  String.mk [hexDigit (n / 16), hexDigit (n % 16)]

/-- Rust `format!("{:04x}", v)` on a 16-bit value `v < 65536`: exactly four
zero-padded lowercase hex digits. -/
def hex4 (n : Nat) : String :=
  String.mk [hexDigit (n / 4096), hexDigit (n / 256 % 16), hexDigit (n / 16 % 16), hexDigit (n % 16)]

/-- Digits of `n` in base 16, most significant first, empty for `n = 0`;
`fuel` is an upper bound on `n` making the recursion structural. -/
def hexMinAux : Nat → Nat → List Char
  | _, 0 => []
  | 0, _ + 1 => []
  | fuel + 1, n + 1 => hexMinAux fuel ((n + 1) / 16) ++ [hexDigit ((n + 1) % 16)]

/-- Rust `format!("{:x}", v)`: minimal-width (unpadded) lowercase hexadecimal,
rendering `0` as `"0"`. -/
def hexMin (n : Nat) : String :=
  if n = 0 then ("0") else String.mk (hexMinAux n n)

/-- Separator-joined concatenation of a list of strings, as produced by
`Vec::join` and by the comma-separated field/element output of the Rust
`Formatter` helpers. -/
def joinSep (sep : String) : List String → String
  | [] => ("")
  | [x] => x
  | x :: y :: t => x ++ sep ++ joinSep sep (y :: t)

/-- Embedding of `impl Debug for HexU8` (`write!(fmt, "0x{:02x}", self.d)`). -/
def hexU8 (d : Nat) : String := ("0x") ++ hex2 d

/-- Embedding of `impl Debug for HexU16` (`write!(fmt, "0x{:04x}", self.d)`). -/
def hexU16 (d : Nat) : String := ("0x") ++ hex4 d

/-- Embedding of `impl Debug for HexSlice`: each byte via `format!("{:02x}")`,
joined with single spaces, inside square brackets. -/
def hexSlice (l : List Nat) : String :=
  ("[") ++ joinSep (" ") (l.map hex2) ++ ("]")

/-- Embedding of the Rust standard `Debug` output for a slice or `Vec` of
unsigned integers: decimal values joined by `", "` inside square brackets. -/
def rustSliceDebug (l : List Nat) : String :=
  ("[") ++ joinSep (", ") (l.map toString) ++ ("]")

/-- Escape of one character in the Rust `Debug` output for `str`: quote and
backslash are escaped, the common control characters use their short escapes,
other control characters use `\u{..}`, and everything else is kept as is. -/
def escapeDebugChar (c : Char) : List Char :=
  if c = '"' then ['\\', '"']
  else if c = '\\' then ['\\', '\\']
  else if c = '\n' then ['\\', 'n']
  else if c = '\r' then ['\\', 'r']
  else if c = '\t' then ['\\', 't']
  else if c.toNat < 32 || c.toNat = 127 then
    '\\' :: 'u' :: '\x7b' :: (hexMin c.toNat).data ++ ['\x7d']
  else [c]

/-- Embedding of the Rust standard `Debug` output for a string: the escaped
text between double quotes. -/
def rustStrDebug (s : String) : String :=
  ("\"") ++ String.mk (s.data.map escapeDebugChar).flatten ++ ("\"")

/-- Embedding of the Rust standard `Debug` output for `Vec<String>`. -/
def rustVecStrDebug (l : List String) : String :=
  ("[") ++ joinSep (", ") (l.map rustStrDebug) ++ ("]")

/-- Embedding of the Rust standard `Debug` output for a `Vec` whose elements
already render to the given strings (used for `Vec<CipherU16>` and
`Vec<HexU8>`, whose element output is unquoted). -/
def rustVecDebug (l : List String) : String :=
  ("[") ++ joinSep (", ") l ++ ("]")

/-- Embedding of the Rust standard `Debug` output for `Option`, given the
rendering of the payload. -/
def debugOpt (f : α → String) : Option α → String
  | none => ("None")
  | some x => ("Some(") ++ f x ++ (")")

/-- Embedding of `Formatter::debug_struct` with the given field list, in the
non-alternate (single line) form `Name \x7b f1: v1, f2: v2 \x7d`. -/
def debugStruct (name : String) (fields : List (String × String)) : String :=
  name ++ (" \x7b ") ++ joinSep (", ") (fields.map (fun p => p.1 ++ (": ") ++ p.2)) ++ (" \x7d")

/-- Embedding of `std::str::from_utf8` on a byte list: `some` of the decoded
characters when the bytes are valid UTF-8, `none` otherwise (continuation
bytes checked, overlong forms, surrogates and values above `0x10FFFF`
rejected). -/
def utf8DecodeL : List Nat → Option (List Char)
  | [] => some []
  | b :: rest =>
    if b < 0x80 then
      match utf8DecodeL rest with
      | some cs => some (Char.ofNat b :: cs)
      | none => none
    else if b < 0xC2 then none
    else if b < 0xE0 then
      match rest with
      | b1 :: rest1 =>
        if 0x80 ≤ b1 && b1 < 0xC0 then
          match utf8DecodeL rest1 with
          | some cs => some (Char.ofNat ((b - 0xC0) * 0x40 + (b1 - 0x80)) :: cs)
          | none => none
        else none
      | [] => none
    else if b < 0xF0 then
      match rest with
      | b1 :: b2 :: rest2 =>
        if (if b == 0xE0 then 0xA0 else 0x80) ≤ b1 && b1 < (if b == 0xED then 0xA0 else 0xC0) && 0x80 ≤ b2 && b2 < 0xC0 then
          match utf8DecodeL rest2 with
          | some cs => some (Char.ofNat ((b - 0xE0) * 0x1000 + (b1 - 0x80) * 0x40 + (b2 - 0x80)) :: cs)
          | none => none
        else none
      | _ => none
    else if b < 0xF5 then
      match rest with
      | b1 :: b2 :: b3 :: rest3 =>
        if (if b == 0xF0 then 0x90 else 0x80) ≤ b1 && b1 < (if b == 0xF4 then 0x90 else 0xC0) && 0x80 ≤ b2 && b2 < 0xC0 && 0x80 ≤ b3 && b3 < 0xC0 then
          match utf8DecodeL rest3 with
          | some cs => some (Char.ofNat ((b - 0xF0) * 0x40000 + (b1 - 0x80) * 0x1000 + (b2 - 0x80) * 0x40 + (b3 - 0x80)) :: cs)
          | none => none
        else none
      | _ => none
    else none

/-- String-valued wrapper around `utf8DecodeL`. -/
def utf8Decode (l : List Nat) : Option String :=
  match utf8DecodeL l with
  | some cs => some (String.mk cs)
  | none => none

/-- Embedding of `impl Debug for CipherU16`: resolve through the cipher-suite
registry, falling back to `0x%04x(Unknown cipher)`. -/
def cipherU16 (fromId : Nat → Option String) (d : Nat) : String :=
  match fromId d with
  | some name => ("0x") ++ hex4 d ++ ("(") ++ name ++ (")")
  | none => ("0x") ++ hex4 d ++ ("(Unknown cipher)")

/-- Embedding of `impl Debug for SignatureSchemeU16`: resolve through the
signature-scheme registry, falling back to
`0x%04x(Unknown signature scheme)`. -/
def signatureSchemeU16 (fromU16 : Nat → Option String) (d : Nat) : String :=
  match fromU16 d with
  | some name => ("0x") ++ hex4 d ++ ("(") ++ name ++ (")")
  | none => ("0x") ++ hex4 d ++ ("(Unknown signature scheme)")

/-- Per-element closure of the `TlsExtension::SNI` arm:
`format!("type=0x{:x},name={}", ty, s)` with the UTF-8 decode falling back to
the fixed placeholder. -/
def sniElem (ty : Nat) (n : List Nat) : String :=
  ("type=0x") ++ hexMin ty ++ (",name=") ++
    (match utf8Decode n with
     | some s => s
     | none => ("<error decoding utf8 string>"))

/-- Per-element closure of the `TlsExtension::ALPN` arm: the UTF-8 decoded
protocol string, or the fixed placeholder. -/
def alpnElem (c : List Nat) : String :=
  match utf8Decode c with
  | some s => s
  | none => ("<error decoding utf8 string>")

/-- Per-element closure of the `TlsExtension::EllipticCurves` arm: resolve
through the named-group registry, falling back to
`<Unknown curve 0x%x/%d>`. -/
def ellipticCurveElem (fromU16 : Nat → Option String) (curve : Nat) : String :=
  match fromU16 curve with
  | some n => n
  | none => ("<Unknown curve 0x") ++ hexMin curve ++ ("/") ++ toString curve ++ (">")

/-- Per-element closure of the `TlsExtension::SignatureAlgorithms` arm: the
hash and sign codes each resolved with a `<Unknown ... 0x%x/%d>` fallback. -/
def signatureAlgorithmsElem (hashReg signReg : Nat → Option String) (h s : Nat) : String × String :=
  (match hashReg h with
   | some n => n
   | none => ("<Unknown hash 0x") ++ hexMin h ++ ("/") ++ toString h ++ (">"),
   match signReg s with
   | some n => n
   | none => ("<Unknown signature 0x") ++ hexMin s ++ ("/") ++ toString s ++ (">"))

/-- Embedding of the Rust standard `Debug` output for a pair of strings. -/
def rustPairStrDebug (p : String × String) : String :=
  ("(") ++ rustStrDebug p.1 ++ (", ") ++ rustStrDebug p.2 ++ (")")

/-- Modelled from the spec: the payload shapes of the `TlsExtension` variants
(`tls_extensions.rs` is not among the sources). Following spec sections 3 and
4.3, list variants carry lists, text variants carry byte sequences, byte-blob
variants carry byte sequences, scalar variants carry an integer, marker
variants carry nothing, and the unknown variant carries the raw type ID and
payload bytes. -/
inductive TlsExtension where
  | SNI : List (Nat × List Nat) → TlsExtension
  | MaxFragmentLength : Nat → TlsExtension
  | StatusRequest : List Nat → TlsExtension
  | EllipticCurves : List Nat → TlsExtension
  | EcPointFormats : List Nat → TlsExtension
  | SignatureAlgorithms : List (Nat × Nat) → TlsExtension
  | SessionTicket : List Nat → TlsExtension
  | KeyShare : List Nat → TlsExtension
  | PreSharedKey : List Nat → TlsExtension
  | EarlyData : TlsExtension
  | SupportedVersions : List Nat → TlsExtension
  | Cookie : List Nat → TlsExtension
  | PskExchangeModes : List Nat → TlsExtension
  | Heartbeat : Nat → TlsExtension
  | ALPN : List (List Nat) → TlsExtension
  | SignedCertificateTimestamp : List Nat → TlsExtension
  | Padding : List Nat → TlsExtension
  | EncryptThenMac : TlsExtension
  | ExtendedMasterSecret : TlsExtension
  | NextProtocolNegotiation : TlsExtension
  | RenegotiationInfo : List Nat → TlsExtension
  | Unknown : Nat → List Nat → TlsExtension

/-- Embedding of `impl Debug for TlsExtension`, arm by arm; `curveReg`,
`hashReg` and `signReg` are the injected named-group, hash-algorithm and
sign-algorithm registries. -/
def renderTlsExtension (curveReg hashReg signReg : Nat → Option String) : TlsExtension → String
  | .SNI v =>
    ("TlsExtension::SNI(") ++ rustVecStrDebug (v.map (fun p => sniElem p.1 p.2)) ++ (")")
  | .MaxFragmentLength l =>
    ("TlsExtension::MaxFragmentLength(") ++ toString l ++ (")")
  | .StatusRequest data =>
    ("TlsExtension::StatusRequest(") ++ rustSliceDebug data ++ (")")
  | .EllipticCurves v =>
    ("TlsExtension::EllipticCurves(") ++ rustVecStrDebug (v.map (ellipticCurveElem curveReg)) ++ (")")
  | .EcPointFormats v =>
    ("TlsExtension::EcPointFormats(") ++ rustSliceDebug v ++ (")")
  | .SignatureAlgorithms v =>
    ("TlsExtension::SignatureAlgorithms(") ++
      ("[") ++ joinSep (", ") (v.map (fun p => rustPairStrDebug (signatureAlgorithmsElem hashReg signReg p.1 p.2))) ++ ("]") ++ (")")
  | .SessionTicket data =>
    ("TlsExtension::SessionTicket(data=") ++ rustSliceDebug data ++ (")")
  | .KeyShare data =>
    ("TlsExtension::KeyShare(data=") ++ hexSlice data ++ (")")
  | .PreSharedKey data =>
    ("TlsExtension::PreSharedKey(data=") ++ hexSlice data ++ (")")
  | .EarlyData => ("TlsExtension::EarlyData")
  | .SupportedVersions v =>
    ("TlsExtension::SupportedVersions(v=") ++ rustVecStrDebug (v.map (fun c => ("0x") ++ hexMin c)) ++ (")")
  | .Cookie data =>
    ("TlsExtension::Cookie(data=") ++ rustSliceDebug data ++ (")")
  | .PskExchangeModes v =>
    ("TlsExtension::PskExchangeModes(") ++ rustSliceDebug v ++ (")")
  | .Heartbeat mode =>
    ("TlsExtension::Heartbeat(mode=") ++ toString mode ++ (")")
  | .ALPN v =>
    ("TlsExtension::ALPN(") ++ rustVecStrDebug (v.map alpnElem) ++ (")")
  | .SignedCertificateTimestamp data =>
    ("TlsExtension::SignedCertificateTimestamp(data=") ++ rustSliceDebug data ++ (")")
  | .Padding data =>
    ("TlsExtension::Padding(data=") ++ rustSliceDebug data ++ (")")
  | .EncryptThenMac => ("TlsExtension::EncryptThenMac")
  | .ExtendedMasterSecret => ("TlsExtension::ExtendedMasterSecret")
  | .NextProtocolNegotiation => ("TlsExtension::NextProtocolNegotiation")
  | .RenegotiationInfo data =>
    ("TlsExtension::RenegotiationInfo(data=") ++ rustSliceDebug data ++ (")")
  | .Unknown id data =>
    ("TlsExtension::Unknown(id=0x") ++ hexMin id ++ (",data=") ++ rustSliceDebug data ++ (")")

/-- Fields of `TlsClientHelloContents` as consumed by its `Debug` impl. -/
structure TlsClientHelloContents where
  version : Nat
  rand_time : Nat
  rand_data : List Nat
  session_id : Option (List Nat)
  ciphers : List Nat
  comp : List Nat
  ext : Option (List Nat)

/-- Embedding of `impl Debug for TlsClientHelloContents`; `cipherReg` is the
injected cipher-suite registry. -/
def renderTlsClientHelloContents (cipherReg : Nat → Option String) (c : TlsClientHelloContents) : String :=
  debugStruct ("TlsClientHelloContents")
    [(("version"), hexU16 c.version),
     (("rand_time"), toString c.rand_time),
     (("rand_data"), hexSlice c.rand_data),
     (("session_id"), debugOpt hexSlice c.session_id),
     (("ciphers"), rustVecDebug (c.ciphers.map (cipherU16 cipherReg))),
     (("comp"), rustVecDebug (c.comp.map hexU8)),
     (("ext"), debugOpt hexSlice c.ext)]

/-- Fields of `TlsMessageAlert` as consumed by its `Debug` impl. -/
structure TlsMessageAlert where
  severity : Nat
  code : Nat

/-- Embedding of `impl Debug for TlsMessageAlert`: the severity is resolved
through the injected alert-severity registry and printed with the `Option`
debug form (`Some(<label>)` or `None`); the code is printed as a raw decimal
integer. -/
def renderTlsMessageAlert (sevReg : Nat → Option String) (a : TlsMessageAlert) : String :=
  debugStruct ("TlsMessageAlert")
    [(("severity"), debugOpt (fun s => s) (sevReg a.severity)),
     (("code"), toString a.code)]

/-- Modelled from the spec: the alert-severity registry
(`TlsAlertSeverity::from_u8` in `tls_alert.rs`, not among the sources); the
spec fixes severity `2` as fatal. -/
def tlsAlertSeverityFromU8 (s : Nat) : Option String :=
  if s = 2 then some ("Fatal") else none

/-- Fields of `ServerDHParams` as consumed by its `Debug` impl. -/
structure ServerDHParams where
  dh_p : List Nat
  dh_g : List Nat
  dh_ys : List Nat

/-- Embedding of `impl Debug for ServerDHParams`: the derived group size
`dh_g.len() * 8` is rendered first, then the three hex-bracketed fields. -/
def renderServerDHParams (p : ServerDHParams) : String :=
  debugStruct ("ServerDHParams")
    [(("group size"), toString (p.dh_g.length * 8)),
     (("dh_p"), hexSlice p.dh_p),
     (("dh_g"), hexSlice p.dh_g),
     (("dh_ys"), hexSlice p.dh_ys)]

/-- Fields of `TlsRecordHeader` as consumed by its `Debug` impl. -/
structure TlsRecordHeader where
  record_type : Nat
  version : Nat
  len : Nat

/-- Embedding of `impl Debug for TlsRecordHeader`: type and version in hex,
length as a raw decimal count. -/
def renderTlsRecordHeader (h : TlsRecordHeader) : String :=
  debugStruct ("TlsRecordHeader")
    [(("type"), hexU8 h.record_type),
     (("version"), hexU16 h.version),
     (("len"), toString h.len)]

/-- Empty registry: every lookup misses. -/
def emptyReg : Nat → Option String := fun _ => none

/-- Boolean test: the character list `s` starts with the pattern `p`. -/
def startsWithL : List Char → List Char → Bool
  | _, [] => true
  | [], _ :: _ => false
  | c :: s, d :: p => c == d && startsWithL s p

/-- Boolean test: the pattern `p` occurs contiguously inside `s`. -/
def hasSubL (p : List Char) : List Char → Bool
  | [] => startsWithL [] p
  | c :: s => startsWithL (c :: s) p || hasSubL p s

/-- Boolean test: the string `pat` occurs contiguously inside `s`. -/
def strHas (s pat : String) : Bool := hasSubL pat.data s.data

theorem startsWithL_self_append (p t : List Char) : startsWithL (p ++ t) p = true := by
  induction p with
  | nil => cases t <;> rfl
  | cons c s ih => simp [startsWithL, ih]

theorem startsWithL_append_right (s p r : List Char) (h : startsWithL s p = true) :
    startsWithL (s ++ r) p = true := by
  induction p generalizing s with
  | nil => cases s ++ r <;> rfl
  | cons d q ih =>
    cases s with
    | nil => simp [startsWithL] at h
    | cons c t =>
      simp only [startsWithL, Bool.and_eq_true] at h
      simp [startsWithL, h.1, ih t h.2]

theorem hasSubL_of_startsWithL (s p : List Char) (h : startsWithL s p = true) :
    hasSubL p s = true := by
  cases s with
  | nil => simpa [hasSubL] using h
  | cons c t => simp [hasSubL, h]

theorem hasSubL_append_left (s r p : List Char) (h : hasSubL p r = true) :
    hasSubL p (s ++ r) = true := by
  induction s with
  | nil => simpa using h
  | cons c t ih => simp [hasSubL, ih]

theorem hasSubL_append_right (s r p : List Char) (h : hasSubL p s = true) :
    hasSubL p (s ++ r) = true := by
  induction s with
  | nil =>
    simp only [hasSubL] at h
    cases p with
    | nil => exact hasSubL_of_startsWithL _ _ (by cases r <;> rfl)
    | cons d q => simp [startsWithL] at h
  | cons c t ih =>
    simp only [hasSubL, Bool.or_eq_true] at h
    rcases h with h | h
    · exact hasSubL_of_startsWithL _ _ (by simpa using startsWithL_append_right (c :: t) p r h)
    · simp [hasSubL, ih h]

theorem strHas_mono_left (pre s t : String) (h : strHas s t = true) :
    strHas (pre ++ s) t = true := by
  simpa [strHas, String.data_append] using hasSubL_append_left pre.data s.data t.data h

theorem strHas_mono_right (s post t : String) (h : strHas s t = true) :
    strHas (s ++ post) t = true := by
  simpa [strHas, String.data_append] using hasSubL_append_right s.data post.data t.data h

theorem strHas_self (t : String) : strHas t t = true :=
  hasSubL_of_startsWithL _ _ (by simpa using startsWithL_self_append t.data [])

theorem strHas_left_append (t post : String) : strHas (t ++ post) t = true :=
  strHas_mono_right _ _ _ (strHas_self t)

theorem strHas_parts (a t b : String) : strHas (a ++ t ++ b) t = true := by
  rw [String.append_assoc]
  exact strHas_mono_left _ _ _ (strHas_left_append t b)

theorem strHas_of_eq {s : String} (a t b : String) (h : s = a ++ t ++ b) :
    strHas s t = true := h ▸ strHas_parts a t b

theorem strHas_joinSep_mem (sep : String) (l : List String) (x : String) (hx : x ∈ l) :
    strHas (joinSep sep l) x = true := by
  induction l with
  | nil => cases hx
  | cons y t ih =>
    cases t with
    | nil =>
      rcases List.mem_singleton.mp hx with rfl
      simpa [joinSep] using strHas_self x
    | cons z t2 =>
      rcases List.mem_cons.mp hx with rfl | hmem
      · show strHas (x ++ sep ++ joinSep sep (z :: t2)) x = true
        rw [String.append_assoc]
        exact strHas_left_append x _
      · show strHas (y ++ sep ++ joinSep sep (z :: t2)) x = true
        exact strHas_mono_left _ _ _ (ih hmem)

theorem hexDigitVal_hexDigit : ∀ d < 16, hexDigitVal (hexDigit d) = d := by decide

theorem isLowerHexDigit_hexDigit : ∀ d < 16, isLowerHexDigit (hexDigit d) = true := by decide

theorem hexDigit_ne_zero_char : ∀ d < 16, 0 < d → hexDigit d ≠ '0' := by decide

theorem hexValL_pair (c1 c2 : Char) :
    hexValL [c1, c2] = hexDigitVal c1 * 16 + hexDigitVal c2 := by
  simp [hexValL]

theorem hexValL_quad (c1 c2 c3 c4 : Char) :
    hexValL [c1, c2, c3, c4] =
      hexDigitVal c1 * 4096 + hexDigitVal c2 * 256 + hexDigitVal c3 * 16 + hexDigitVal c4 := by
  simp [hexValL]
  ring

theorem hexValL_append_single (xs : List Char) (c : Char) :
    hexValL (xs ++ [c]) = hexValL xs * 16 + hexDigitVal c := by
  induction xs with
  | nil => simp [hexValL]
  | cons a t ih =>
    have hlen : (t ++ [c]).length = t.length + 1 := by simp
    simp only [List.cons_append, hexValL, List.append_eq, hlen, pow_succ]
    rw [ih]
    ring

theorem hexMinAux_val (n : Nat) : ∀ fuel, n ≤ fuel → hexValL (hexMinAux fuel n) = n := by
  induction n using Nat.strong_induction_on with
  | _ n ih =>
    intro fuel h
    cases n with
    | zero => cases fuel <;> rfl
    | succ m =>
      cases fuel with
      | zero => omega
      | succ f =>
        simp only [hexMinAux]
        rw [hexValL_append_single, ih ((m + 1) / 16) (by omega) f (by omega),
          hexDigitVal_hexDigit ((m + 1) % 16) (by omega)]
        omega

theorem hexMinAux_hexDigits (n : Nat) : ∀ fuel, n ≤ fuel →
    ∀ c ∈ hexMinAux fuel n, isLowerHexDigit c = true := by
  induction n using Nat.strong_induction_on with
  | _ n ih =>
    intro fuel h c hc
    cases n with
    | zero => cases fuel <;> simp [hexMinAux] at hc
    | succ m =>
      cases fuel with
      | zero => omega
      | succ f =>
        simp only [hexMinAux, List.mem_append, List.mem_singleton] at hc
        rcases hc with hc | rfl
        · exact ih ((m + 1) / 16) (by omega) f (by omega) c hc
        · exact isLowerHexDigit_hexDigit ((m + 1) % 16) (by omega)

theorem hexMinAux_head (n : Nat) : ∀ fuel, 0 < n → n ≤ fuel →
    ∃ d t, hexMinAux fuel n = hexDigit d :: t ∧ 0 < d ∧ d < 16 := by
  induction n using Nat.strong_induction_on with
  | _ n ih =>
    intro fuel hn h
    cases n with
    | zero => omega
    | succ m =>
      cases fuel with
      | zero => omega
      | succ f =>
        simp only [hexMinAux]
        by_cases hq : (m + 1) / 16 = 0
        · refine ⟨(m + 1) % 16, [], ?_, by omega, by omega⟩
          rw [hq]
          cases f <;> rfl
        · obtain ⟨d, t, ht, hd0, hd16⟩ :=
            ih ((m + 1) / 16) (by omega) f (by omega) (by omega)
          exact ⟨d, t ++ [hexDigit ((m + 1) % 16)], by rw [ht]; rfl, hd0, hd16⟩

/-- Semantic characterization of the minimal-width hex form for nonzero
values: the digit characters are lowercase hex, they decode back to the
value, and the leading digit is nonzero (so the form has no leading zero and
is the shortest hex representation of the value). -/
theorem hexMin_spec (n : Nat) (hn : n ≠ 0) :
    hexValL (hexMin n).data = n ∧ (∀ c ∈ (hexMin n).data, isLowerHexDigit c = true) ∧
    ∃ d t, (hexMin n).data = hexDigit d :: t ∧ 0 < d ∧ d < 16 := by
  have hd : (hexMin n).data = hexMinAux n n := by simp [hexMin, hn]
  rw [hd]
  exact ⟨hexMinAux_val n n (le_refl n), hexMinAux_hexDigits n n (le_refl n),
    hexMinAux_head n n (by omega) (le_refl n)⟩

theorem string_ext {a b : String} (h : a.data = b.data) : a = b := by
  cases a
  cases b
  exact congrArg String.mk h

theorem hex2_data (b : Nat) : (hex2 b).data = [hexDigit (b / 16), hexDigit (b % 16)] := rfl

theorem hex4_data (v : Nat) : (hex4 v).data =
    [hexDigit (v / 4096), hexDigit (v / 256 % 16), hexDigit (v / 16 % 16), hexDigit (v % 16)] := rfl

theorem hex2_val (b : Nat) (hb : b < 256) : hexValL (hex2 b).data = b := by
  rw [hex2_data, hexValL_pair, hexDigitVal_hexDigit _ (by omega), hexDigitVal_hexDigit _ (by omega)]
  omega

theorem hex4_val (v : Nat) (hv : v < 65536) : hexValL (hex4 v).data = v := by
  rw [hex4_data, hexValL_quad, hexDigitVal_hexDigit _ (by omega), hexDigitVal_hexDigit _ (by omega),
    hexDigitVal_hexDigit _ (by omega), hexDigitVal_hexDigit _ (by omega)]
  omega

theorem hex2_chars (b : Nat) (hb : b < 256) : ∀ c ∈ (hex2 b).data, isLowerHexDigit c = true := by
  intro c hc
  rw [hex2_data] at hc
  simp only [List.mem_cons, List.not_mem_nil, or_false] at hc
  rcases hc with rfl | rfl
  · exact isLowerHexDigit_hexDigit _ (by omega)
  · exact isLowerHexDigit_hexDigit _ (by omega)

theorem hex4_chars (v : Nat) (hv : v < 65536) : ∀ c ∈ (hex4 v).data, isLowerHexDigit c = true := by
  intro c hc
  rw [hex4_data] at hc
  simp only [List.mem_cons, List.not_mem_nil, or_false] at hc
  rcases hc with rfl | rfl | rfl | rfl
  · exact isLowerHexDigit_hexDigit _ (by omega)
  · exact isLowerHexDigit_hexDigit _ (by omega)
  · exact isLowerHexDigit_hexDigit _ (by omega)
  · exact isLowerHexDigit_hexDigit _ (by omega)

theorem forall₂_map_self {α β : Type} {R : α → β → Prop} (f : α → β) (l : List α)
    (h : ∀ x ∈ l, R x (f x)) : List.Forall₂ R l (l.map f) := by
  induction l with
  | nil => exact List.Forall₂.nil
  | cons a t ih =>
    exact List.Forall₂.cons (h a (List.mem_cons_self a t)) (ih (fun x hx => h x (List.mem_cons_of_mem a hx)))

/-- C9: the scalar hex formatters are total; an 8-bit value renders as `0x`
plus exactly two lowercase hex digits whose value is the input, a 16-bit
value as `0x` plus exactly four such digits, and a byte sequence as a
bracketed space-separated list of two-digit lowercase hex bytes, the empty
sequence rendering as `[]`. -/
theorem c9_scalar_hex_formatters :
    (∀ d, d < 256 → (hexU8 d).data = ['0', 'x', hexDigit (d / 16), hexDigit (d % 16)] ∧
      (∀ c ∈ (hex2 d).data, isLowerHexDigit c = true) ∧ hexValL (hex2 d).data = d) ∧
    (∀ d, d < 65536 → (hexU16 d).data =
        ['0', 'x', hexDigit (d / 4096), hexDigit (d / 256 % 16), hexDigit (d / 16 % 16), hexDigit (d % 16)] ∧
      (∀ c ∈ (hex4 d).data, isLowerHexDigit c = true) ∧ hexValL (hex4 d).data = d) ∧
    hexSlice [] = ("[]") ∧
    (∀ l : List Nat, hexSlice l = ("[") ++ joinSep (" ") (l.map hex2) ++ ("]") ∧
      List.Forall₂
        (fun b p => (p : String).data.length = 2 ∧
          (b < 256 → (∀ c ∈ p.data, isLowerHexDigit c = true) ∧ hexValL p.data = b))
        l (l.map hex2)) := by
  refine ⟨?_, ?_, by decide, ?_⟩
  · intro d hd
    refine ⟨?_, hex2_chars d hd, hex2_val d hd⟩
    show (("0x") ++ hex2 d).data = _
    rw [String.data_append, hex2_data]
    rfl
  · intro d hd
    refine ⟨?_, hex4_chars d hd, hex4_val d hd⟩
    show (("0x") ++ hex4 d).data = _
    rw [String.data_append, hex4_data]
    rfl
  · intro l
    refine ⟨rfl, forall₂_map_self hex2 l ?_⟩
    intro b _
    exact ⟨rfl, fun hb => ⟨hex2_chars b hb, hex2_val b hb⟩⟩

/-- C9 witness: the three formatter facts instantiated at concrete inputs. -/
theorem c9_scalar_hex_formatters_witness :
    (hexU8 171).data = ['0', 'x', 'a', 'b'] ∧ (hexU16 772).data = ['0', 'x', '0', '3', '0', '4'] ∧
    hexSlice [] = ("[]") := by
  refine ⟨?_, ?_, c9_scalar_hex_formatters.2.2.1⟩
  · have h := (c9_scalar_hex_formatters.1 171 (by decide)).1
    simpa using h
  · have h := (c9_scalar_hex_formatters.2.1 772 (by decide)).1
    simpa using h

/-- C10: the SNI entry type tag, the SupportedVersions list elements, and the
Unknown-extension type ID print as `0x` followed by the minimal-width
(unpadded) lowercase hex form of the value: the digits decode back to the
value and the leading digit is nonzero unless the value is `0`, which prints
as `0x0`; in particular `0x0304` prints as `0x304`. -/
theorem c10_minimal_width_hex (cr hr sr : Nat → Option String) :
    (∀ v : List Nat, renderTlsExtension cr hr sr (.SupportedVersions v) =
      ("TlsExtension::SupportedVersions(v=") ++
        rustVecStrDebug (v.map (fun c => ("0x") ++ hexMin c)) ++ (")")) ∧
    (∀ ty n, ∃ tail : String, sniElem ty n = ("type=0x") ++ hexMin ty ++ (",name=") ++ tail) ∧
    (∀ i data, renderTlsExtension cr hr sr (.Unknown i data) =
      ("TlsExtension::Unknown(id=0x") ++ hexMin i ++ (",data=") ++ rustSliceDebug data ++ (")")) ∧
    hexMin 772 = ("304") ∧ hexMin 0 = ("0") ∧
    (∀ v, v ≠ 0 → hexValL (hexMin v).data = v ∧
      (∀ c ∈ (hexMin v).data, isLowerHexDigit c = true) ∧
      ∃ c t, (hexMin v).data = c :: t ∧ c ≠ '0') := by
  refine ⟨fun v => rfl, ?_, fun i data => rfl, by decide, by decide, ?_⟩
  · intro ty n
    match h : utf8Decode n with
    | some s => exact ⟨s, by simp [sniElem, h]⟩
    | none => exact ⟨("<error decoding utf8 string>"), by simp [sniElem, h]⟩
  · intro v hv
    obtain ⟨hval, hchars, d, t, hhead, hd0, hd16⟩ := hexMin_spec v hv
    exact ⟨hval, hchars, hexDigit d, t, hhead, hexDigit_ne_zero_char d hd16 hd0⟩

/-- C10 witness: the minimal-hex facts at the value `0x0304`. -/
theorem c10_minimal_width_hex_witness :
    hexMin 772 = ("304") ∧ hexValL (hexMin 772).data = 772 := by
  refine ⟨(c10_minimal_width_hex emptyReg emptyReg emptyReg).2.2.2.1, ?_⟩
  exact ((c10_minimal_width_hex emptyReg emptyReg emptyReg).2.2.2.2.2 772 (by decide)).1

/-- C1 counterexample: with the cipher-suite registry missing code `0x9999`,
the cipher fallback renders only the hexadecimal form; the decimal form
`39321` of the code does not occur in the output, refuting the claim that
every resolver fallback preserves the code in both hex and decimal form. -/
theorem c1_counterexample :
    cipherU16 emptyReg 39321 = ("0x9999(Unknown cipher)") ∧
    strHas (cipherU16 emptyReg 39321) (toString 39321) = false ∧
    signatureSchemeU16 emptyReg 39321 = ("0x9999(Unknown signature scheme)") ∧
    strHas (signatureSchemeU16 emptyReg 39321) (toString 39321) = false := by
  refine ⟨by decide, by decide, by decide, by decide⟩

/-- C1 (amended): for a code absent from the registry, every resolver
fallback carries an explicit unknown marker and the code in hexadecimal
(the four hex digits decode back to the code); the elliptic-curve resolver
additionally carries the decimal form, while the cipher-suite and
signature-scheme resolvers carry the hexadecimal form only. -/
theorem c1_unknown_code_fallback (reg : Nat → Option String) (c : Nat)
    (hreg : reg c = none) (hc : c < 65536) :
    cipherU16 reg c = ("0x") ++ hex4 c ++ ("(Unknown cipher)") ∧
    signatureSchemeU16 reg c = ("0x") ++ hex4 c ++ ("(Unknown signature scheme)") ∧
    ellipticCurveElem reg c = ("<Unknown curve 0x") ++ hexMin c ++ ("/") ++ toString c ++ (">") ∧
    hexValL (hex4 c).data = c ∧ (c ≠ 0 → hexValL (hexMin c).data = c) := by
  refine ⟨?_, ?_, ?_, hex4_val c hc, fun h0 => (hexMin_spec c h0).1⟩
  · simp [cipherU16, hreg]
  · simp [signatureSchemeU16, hreg]
  · simp [ellipticCurveElem, hreg]

/-- C1 witness: the amended fallback facts at code `0x9999` and an empty
registry. -/
theorem c1_unknown_code_fallback_witness :
    cipherU16 emptyReg 39321 = ("0x") ++ hex4 39321 ++ ("(Unknown cipher)") ∧
    ellipticCurveElem emptyReg 39321 =
      ("<Unknown curve 0x") ++ hexMin 39321 ++ ("/") ++ toString 39321 ++ (">") ∧
    hexValL (hexMin 39321).data = 39321 := by
  have h := c1_unknown_code_fallback emptyReg 39321 rfl (by decide)
  exact ⟨h.1, h.2.2.1, h.2.2.2.2 (by decide)⟩

/-- C3 counterexample: the Unknown-extension arm renders its payload with the
generic decimal slice debug form, not the hex-bracket form: for raw type
`0x44` and payload `[0x01, 0x02]` the output is
`TlsExtension::Unknown(id=0x44,data=[1, 2])`, and the hex-bracketed payload
`[01 02]` does not occur in it. -/
theorem c3_counterexample :
    renderTlsExtension emptyReg emptyReg emptyReg (.Unknown 68 [1, 2]) =
      ("TlsExtension::Unknown(id=0x44,data=[1, 2])") ∧
    strHas (renderTlsExtension emptyReg emptyReg emptyReg (.Unknown 68 [1, 2]))
      (hexSlice [1, 2]) = false := by
  refine ⟨by decide, by decide⟩

/-- C3 (amended): the Unknown-extension arm renders the raw type ID in
minimal-width hexadecimal and the payload as the generic bracketed decimal
byte list, losing neither: the hex digits decode back to the type ID and
every payload byte occurs (in decimal) in the output. -/
theorem c3_unknown_extension_render (cr hr sr : Nat → Option String) (i : Nat) (data : List Nat) :
    renderTlsExtension cr hr sr (.Unknown i data) =
      ("TlsExtension::Unknown(id=0x") ++ hexMin i ++ (",data=") ++ rustSliceDebug data ++ (")") ∧
    (i ≠ 0 → hexValL (hexMin i).data = i) ∧
    (∀ b ∈ data, strHas (renderTlsExtension cr hr sr (.Unknown i data)) (toString b) = true) := by
  refine ⟨rfl, fun h0 => (hexMin_spec i h0).1, ?_⟩
  intro b hb
  show strHas ((("TlsExtension::Unknown(id=0x") ++ hexMin i ++ (",data=") ++
      (("[") ++ joinSep (", ") (data.map toString) ++ ("]"))) ++ (")")) (toString b) = true
  apply strHas_mono_right
  apply strHas_mono_left
  apply strHas_mono_right
  apply strHas_mono_left
  exact strHas_joinSep_mem _ _ _ (List.mem_map_of_mem toString hb)

/-- C3 witness: the amended rendering facts at type `0x44` and payload
`[1, 2]`. -/
theorem c3_unknown_extension_render_witness :
    strHas (renderTlsExtension emptyReg emptyReg emptyReg (.Unknown 68 [1, 2])) (toString 2) = true ∧
    hexValL (hexMin 68).data = 68 := by
  have h := c3_unknown_extension_render emptyReg emptyReg emptyReg 68 [1, 2]
  exact ⟨h.2.2 2 (by simp), h.2.1 (by decide)⟩

/-- C4 counterexample: the generic byte-sequence debug form and the explicit
hex-bracket form are not equal as renderings: on the byte sequence `[10]` the
generic form is the decimal `[10]` while the hex form is `[0a]`. -/
theorem c4_counterexample :
    rustSliceDebug [10] = ("[10]") ∧ hexSlice [10] = ("[0a]") ∧
    rustSliceDebug [10] ≠ hexSlice [10] := by
  refine ⟨by decide, by decide, by decide⟩

/-- C4 (amended): the status-request, session-ticket, cookie,
signed-certificate-timestamp, padding and renegotiation-info variants render
their payload with the generic debug form, which prints the bytes in decimal
separated by commas, while key-share and pre-shared-key use the two-digit-hex
space-separated bracket form; the two forms agree on the empty sequence
(both render `[]`) but are not equal in general. -/
theorem c4_byte_blob_forms (cr hr sr : Nat → Option String) (l : List Nat) :
    renderTlsExtension cr hr sr (.StatusRequest l) =
      ("TlsExtension::StatusRequest(") ++ rustSliceDebug l ++ (")") ∧
    renderTlsExtension cr hr sr (.SessionTicket l) =
      ("TlsExtension::SessionTicket(data=") ++ rustSliceDebug l ++ (")") ∧
    renderTlsExtension cr hr sr (.Cookie l) =
      ("TlsExtension::Cookie(data=") ++ rustSliceDebug l ++ (")") ∧
    renderTlsExtension cr hr sr (.SignedCertificateTimestamp l) =
      ("TlsExtension::SignedCertificateTimestamp(data=") ++ rustSliceDebug l ++ (")") ∧
    renderTlsExtension cr hr sr (.Padding l) =
      ("TlsExtension::Padding(data=") ++ rustSliceDebug l ++ (")") ∧
    renderTlsExtension cr hr sr (.RenegotiationInfo l) =
      ("TlsExtension::RenegotiationInfo(data=") ++ rustSliceDebug l ++ (")") ∧
    renderTlsExtension cr hr sr (.KeyShare l) =
      ("TlsExtension::KeyShare(data=") ++ hexSlice l ++ (")") ∧
    renderTlsExtension cr hr sr (.PreSharedKey l) =
      ("TlsExtension::PreSharedKey(data=") ++ hexSlice l ++ (")") ∧
    rustSliceDebug [] = hexSlice [] := by
  exact ⟨rfl, rfl, rfl, rfl, rfl, rfl, rfl, rfl, by decide⟩

/-- C5 counterexample: the heartbeat mode is a numeric protocol field (not a
counted quantity or bit-size) and renders in bare decimal with no hexadecimal
at all: mode `10` renders as `TlsExtension::Heartbeat(mode=10)`, which does
not even contain `0x`. -/
theorem c5_counterexample :
    renderTlsExtension emptyReg emptyReg emptyReg (.Heartbeat 10) =
      ("TlsExtension::Heartbeat(mode=10)") ∧
    strHas (renderTlsExtension emptyReg emptyReg emptyReg (.Heartbeat 10)) ("0x") = false := by
  refine ⟨by decide, by decide⟩

/-- C5 (amended): version, record-type, cipher and compression fields route
through the hex formatters (shown here on the record header), but the EC
point format list, the PSK exchange mode list, the heartbeat mode and the
max-fragment length render their numeric values in bare decimal. -/
theorem c5_decimal_exceptions (cr hr sr : Nat → Option String) (v modes : List Nat)
    (mode mfl : Nat) (h : TlsRecordHeader) :
    renderTlsExtension cr hr sr (.EcPointFormats v) =
      ("TlsExtension::EcPointFormats(") ++ rustSliceDebug v ++ (")") ∧
    renderTlsExtension cr hr sr (.PskExchangeModes modes) =
      ("TlsExtension::PskExchangeModes(") ++ rustSliceDebug modes ++ (")") ∧
    renderTlsExtension cr hr sr (.Heartbeat mode) =
      ("TlsExtension::Heartbeat(mode=") ++ toString mode ++ (")") ∧
    renderTlsExtension cr hr sr (.MaxFragmentLength mfl) =
      ("TlsExtension::MaxFragmentLength(") ++ toString mfl ++ (")") ∧
    strHas (renderTlsRecordHeader h) (("type: 0x") ++ hex2 h.record_type) = true ∧
    strHas (renderTlsRecordHeader h) (("version: 0x") ++ hex4 h.version) = true := by
  refine ⟨rfl, rfl, rfl, rfl, ?_, ?_⟩
  · have e : (("type") ++ (": ") ++ ("0x") : String) = ("type: 0x") := by decide
    rw [show (("type: 0x") ++ hex2 h.record_type : String) =
        ("type") ++ (": ") ++ (("0x") ++ hex2 h.record_type) from by
      rw [← String.append_assoc, e]]
    apply strHas_of_eq (("TlsRecordHeader") ++ (" \x7b "))
      (("type") ++ (": ") ++ (("0x") ++ hex2 h.record_type))
      ((", ") ++ (("version") ++ (": ") ++ hexU16 h.version ++ (", ") ++
        (("len") ++ (": ") ++ toString h.len)) ++ (" \x7d"))
    simp [renderTlsRecordHeader, debugStruct, joinSep, hexU8, String.append_assoc]
  · have e : (("version") ++ (": ") ++ ("0x") : String) = ("version: 0x") := by decide
    rw [show (("version: 0x") ++ hex4 h.version : String) =
        ("version") ++ (": ") ++ (("0x") ++ hex4 h.version) from by
      rw [← String.append_assoc, e]]
    apply strHas_of_eq
      (("TlsRecordHeader") ++ (" \x7b ") ++ (("type") ++ (": ") ++ hexU8 h.record_type ++ (", ")))
      (("version") ++ (": ") ++ (("0x") ++ hex4 h.version))
      ((", ") ++ (("len") ++ (": ") ++ toString h.len) ++ (" \x7d"))
    simp [renderTlsRecordHeader, debugStruct, joinSep, hexU16, String.append_assoc]

/-- C6: rendering an Alert resolves its severity through the severity
registry, printing `Some(<label>)` for a registered severity and the explicit
unrecognized-severity indication `None` for an unregistered one, and shows
the alert code as a raw decimal integer. -/
theorem c6_alert_render (sevReg : Nat → Option String) (a : TlsMessageAlert) :
    (∀ lbl, sevReg a.severity = some lbl →
      renderTlsMessageAlert sevReg a =
        ("TlsMessageAlert \x7b severity: Some(") ++ lbl ++ ("), code: ") ++
          toString a.code ++ (" \x7d")) ∧
    (sevReg a.severity = none →
      renderTlsMessageAlert sevReg a =
        ("TlsMessageAlert \x7b severity: None, code: ") ++ toString a.code ++ (" \x7d")) := by
  constructor
  · intro lbl hl
    apply string_ext
    simp [renderTlsMessageAlert, debugStruct, joinSep, debugOpt, hl, String.data_append]
  · intro hl
    apply string_ext
    simp [renderTlsMessageAlert, debugStruct, joinSep, debugOpt, hl, String.data_append]

/-- C6 witness: an Alert with severity `2` and code `10`, rendered with the
spec-modelled severity registry, shows the symbolic label `Fatal` and the raw
integer `10`. -/
theorem c6_alert_render_witness :
    renderTlsMessageAlert tlsAlertSeverityFromU8 ⟨2, 10⟩ =
      ("TlsMessageAlert \x7b severity: Some(Fatal), code: 10 \x7d") := by
  have h := (c6_alert_render tlsAlertSeverityFromU8 ⟨2, 10⟩).1 ("Fatal") rfl
  rw [h]
  decide

/-- C8: the DH parameters render shows the derived group size
`byte_length(dh_g) * 8` ahead of the hex-bracketed `dh_p`, `dh_g` and `dh_ys`
fields; when `dh_g` is 32 bytes long the group size shown is `256`. -/
theorem c8_dh_group_size (p : ServerDHParams) :
    renderServerDHParams p =
      ("ServerDHParams \x7b group size: ") ++ toString (p.dh_g.length * 8) ++
        (", dh_p: ") ++ hexSlice p.dh_p ++ (", dh_g: ") ++ hexSlice p.dh_g ++
        (", dh_ys: ") ++ hexSlice p.dh_ys ++ (" \x7d") ∧
    (p.dh_g.length = 32 → strHas (renderServerDHParams p) ("group size: 256") = true) := by
  constructor
  · apply string_ext
    simp [renderServerDHParams, debugStruct, joinSep, String.data_append]
  · intro hlen
    apply strHas_of_eq ("ServerDHParams \x7b ") ("group size: 256")
      ((", dh_p: ") ++ hexSlice p.dh_p ++ (", dh_g: ") ++ hexSlice p.dh_g ++
        (", dh_ys: ") ++ hexSlice p.dh_ys ++ (" \x7d"))
    apply string_ext
    have h256 : (toString (256 : Nat)).data = ['2', '5', '6'] := by decide
    simp [renderServerDHParams, debugStruct, joinSep, hlen, h256, String.data_append]

/-- C8 witness: DH parameters whose generator field is 32 bytes long render a
group size of `256`. -/
theorem c8_dh_group_size_witness :
    strHas (renderServerDHParams ⟨[], List.replicate 32 0, []⟩) ("group size: 256") = true :=
  (c8_dh_group_size ⟨[], List.replicate 32 0, []⟩).2 (by simp)

/-- C7: in the ClientHello render the optional session-identifier and
extensions-blob fields show the explicit absent marker `None` when absent and
`Some(<hex-bracketed bytes>)` when present; with cipher list
`[0x1301, 0x9999]`, a registry knowing `0x1301` and missing `0x9999` renders
the known name after `0x1301` and the explicit unknown-cipher marker after
`0x9999`. -/
theorem c7_client_hello_optional_fields (reg : Nat → Option String) (ch : TlsClientHelloContents) :
    (ch.session_id = none →
      strHas (renderTlsClientHelloContents reg ch) ("session_id: None") = true) ∧
    (∀ s, ch.session_id = some s →
      strHas (renderTlsClientHelloContents reg ch)
        (("session_id: Some(") ++ hexSlice s ++ (")")) = true) ∧
    (ch.ext = none → strHas (renderTlsClientHelloContents reg ch) ("ext: None") = true) ∧
    (∀ e, ch.ext = some e →
      strHas (renderTlsClientHelloContents reg ch) (("ext: Some(") ++ hexSlice e ++ (")")) = true) ∧
    (∀ name, reg 4865 = some name → reg 39321 = none → ch.ciphers = [4865, 39321] →
      strHas (renderTlsClientHelloContents reg ch) (("0x1301(") ++ name ++ (")")) = true ∧
      strHas (renderTlsClientHelloContents reg ch) ("0x9999(Unknown cipher)") = true) := by
  have k1 : (hex4 4865).data = ['1', '3', '0', '1'] := by decide
  have k2 : (hex4 39321).data = ['9', '9', '9', '9'] := by decide
  refine ⟨?_, ?_, ?_, ?_, ?_⟩
  · intro hsid
    apply strHas_of_eq
      (("TlsClientHelloContents \x7b version: ") ++ hexU16 ch.version ++ (", rand_time: ") ++
        toString ch.rand_time ++ (", rand_data: ") ++ hexSlice ch.rand_data ++ (", "))
      ("session_id: None")
      ((", ciphers: ") ++ rustVecDebug (ch.ciphers.map (cipherU16 reg)) ++ (", comp: ") ++
        rustVecDebug (ch.comp.map hexU8) ++ (", ext: ") ++ debugOpt hexSlice ch.ext ++ (" \x7d"))
    apply string_ext
    simp [renderTlsClientHelloContents, debugStruct, joinSep, debugOpt, hsid, String.data_append]
  · intro s hsid
    apply strHas_of_eq
      (("TlsClientHelloContents \x7b version: ") ++ hexU16 ch.version ++ (", rand_time: ") ++
        toString ch.rand_time ++ (", rand_data: ") ++ hexSlice ch.rand_data ++ (", "))
      (("session_id: Some(") ++ hexSlice s ++ (")"))
      ((", ciphers: ") ++ rustVecDebug (ch.ciphers.map (cipherU16 reg)) ++ (", comp: ") ++
        rustVecDebug (ch.comp.map hexU8) ++ (", ext: ") ++ debugOpt hexSlice ch.ext ++ (" \x7d"))
    apply string_ext
    simp [renderTlsClientHelloContents, debugStruct, joinSep, debugOpt, hsid, String.data_append]
  · intro hext
    apply strHas_of_eq
      (("TlsClientHelloContents \x7b version: ") ++ hexU16 ch.version ++ (", rand_time: ") ++
        toString ch.rand_time ++ (", rand_data: ") ++ hexSlice ch.rand_data ++ (", session_id: ") ++
        debugOpt hexSlice ch.session_id ++ (", ciphers: ") ++
        rustVecDebug (ch.ciphers.map (cipherU16 reg)) ++ (", comp: ") ++
        rustVecDebug (ch.comp.map hexU8) ++ (", "))
      ("ext: None")
      (" \x7d")
    apply string_ext
    simp [renderTlsClientHelloContents, debugStruct, joinSep, debugOpt, hext, String.data_append]
  · intro e hext
    apply strHas_of_eq
      (("TlsClientHelloContents \x7b version: ") ++ hexU16 ch.version ++ (", rand_time: ") ++
        toString ch.rand_time ++ (", rand_data: ") ++ hexSlice ch.rand_data ++ (", session_id: ") ++
        debugOpt hexSlice ch.session_id ++ (", ciphers: ") ++
        rustVecDebug (ch.ciphers.map (cipherU16 reg)) ++ (", comp: ") ++
        rustVecDebug (ch.comp.map hexU8) ++ (", "))
      (("ext: Some(") ++ hexSlice e ++ (")"))
      (" \x7d")
    apply string_ext
    simp [renderTlsClientHelloContents, debugStruct, joinSep, debugOpt, hext, String.data_append]
  · intro name hk hu hc
    constructor
    · apply strHas_of_eq
        (("TlsClientHelloContents \x7b version: ") ++ hexU16 ch.version ++ (", rand_time: ") ++
          toString ch.rand_time ++ (", rand_data: ") ++ hexSlice ch.rand_data ++ (", session_id: ") ++
          debugOpt hexSlice ch.session_id ++ (", ciphers: ["))
        (("0x1301(") ++ name ++ (")"))
        ((", 0x9999(Unknown cipher)], comp: ") ++ rustVecDebug (ch.comp.map hexU8) ++
          (", ext: ") ++ debugOpt hexSlice ch.ext ++ (" \x7d"))
      apply string_ext
      simp [renderTlsClientHelloContents, debugStruct, joinSep, debugOpt, rustVecDebug,
        cipherU16, hc, hk, hu, k1, k2, String.data_append]
    · apply strHas_of_eq
        (("TlsClientHelloContents \x7b version: ") ++ hexU16 ch.version ++ (", rand_time: ") ++
          toString ch.rand_time ++ (", rand_data: ") ++ hexSlice ch.rand_data ++ (", session_id: ") ++
          debugOpt hexSlice ch.session_id ++ (", ciphers: [0x1301(") ++ name ++ ("), "))
        ("0x9999(Unknown cipher)")
        (("], comp: ") ++ rustVecDebug (ch.comp.map hexU8) ++
          (", ext: ") ++ debugOpt hexSlice ch.ext ++ (" \x7d"))
      apply string_ext
      simp [renderTlsClientHelloContents, debugStruct, joinSep, debugOpt, rustVecDebug,
        cipherU16, hc, hk, hu, k1, k2, String.data_append]

/-- C7 witness: a concrete ClientHello with cipher list `[0x1301, 0x9999]`,
no session ID and no extensions, under a registry that knows `0x1301` only. -/
theorem c7_client_hello_optional_fields_witness :
    strHas (renderTlsClientHelloContents
        (fun c => if c = 4865 then some ("TLS13_AES_128_GCM_SHA256") else none)
        ⟨771, 0, [], none, [4865, 39321], [0], none⟩) ("session_id: None") = true ∧
    strHas (renderTlsClientHelloContents
        (fun c => if c = 4865 then some ("TLS13_AES_128_GCM_SHA256") else none)
        ⟨771, 0, [], none, [4865, 39321], [0], none⟩)
      (("0x1301(") ++ ("TLS13_AES_128_GCM_SHA256") ++ (")")) = true ∧
    strHas (renderTlsClientHelloContents
        (fun c => if c = 4865 then some ("TLS13_AES_128_GCM_SHA256") else none)
        ⟨771, 0, [], none, [4865, 39321], [0], none⟩) ("0x9999(Unknown cipher)") = true := by
  have h := c7_client_hello_optional_fields
    (fun c => if c = 4865 then some ("TLS13_AES_128_GCM_SHA256") else none)
    ⟨771, 0, [], none, [4865, 39321], [0], none⟩
  have hs := h.2.2.2.2 ("TLS13_AES_128_GCM_SHA256") (by decide) (by decide) rfl
  exact ⟨h.1 rfl, hs.1, hs.2⟩

/-- C2: the SNI and ALPN renders map every list element independently; an
element whose bytes are not valid UTF-8 renders as the fixed placeholder
`<error decoding utf8 string>`, and every element (valid or not) appears in
the rendered list, so one failed decode neither aborts the render (which is a
total function) nor affects the other elements. -/
theorem c2_utf8_placeholder (cr hr sr : Nat → Option String)
    (sni : List (Nat × List Nat)) (alpn : List (List Nat)) :
    renderTlsExtension cr hr sr (.SNI sni) =
      ("TlsExtension::SNI(") ++ rustVecStrDebug (sni.map (fun p => sniElem p.1 p.2)) ++ (")") ∧
    (∀ ty n, utf8Decode n = none →
      sniElem ty n = ("type=0x") ++ hexMin ty ++ (",name=<error decoding utf8 string>")) ∧
    (∀ p ∈ sni, strHas (renderTlsExtension cr hr sr (.SNI sni))
      (rustStrDebug (sniElem p.1 p.2)) = true) ∧
    renderTlsExtension cr hr sr (.ALPN alpn) =
      ("TlsExtension::ALPN(") ++ rustVecStrDebug (alpn.map alpnElem) ++ (")") ∧
    (∀ n, utf8Decode n = none → alpnElem n = ("<error decoding utf8 string>")) ∧
    (∀ n ∈ alpn, strHas (renderTlsExtension cr hr sr (.ALPN alpn))
      (rustStrDebug (alpnElem n)) = true) := by
  refine ⟨rfl, ?_, ?_, rfl, ?_, ?_⟩
  · intro ty n hdec
    apply string_ext
    simp [sniElem, hdec, String.data_append]
  · intro p hp
    show strHas ((("TlsExtension::SNI(") ++
      ((("[") ++ joinSep (", ") ((sni.map (fun p => sniElem p.1 p.2)).map rustStrDebug) ++ ("]")))) ++
      (")")) (rustStrDebug (sniElem p.1 p.2)) = true
    apply strHas_mono_right
    apply strHas_mono_left
    apply strHas_mono_right
    apply strHas_mono_left
    exact strHas_joinSep_mem _ _ _
      (List.mem_map_of_mem rustStrDebug (List.mem_map_of_mem (fun p => sniElem p.1 p.2) hp))
  · intro n hdec
    simp [alpnElem, hdec]
  · intro n hn
    show strHas ((("TlsExtension::ALPN(") ++
      ((("[") ++ joinSep (", ") ((alpn.map alpnElem).map rustStrDebug) ++ ("]")))) ++
      (")")) (rustStrDebug (alpnElem n)) = true
    apply strHas_mono_right
    apply strHas_mono_left
    apply strHas_mono_right
    apply strHas_mono_left
    exact strHas_joinSep_mem _ _ _
      (List.mem_map_of_mem rustStrDebug (List.mem_map_of_mem alpnElem hn))

/-- C2 witness: an ALPN list with one UTF-8-invalid entry (`[0xff]`) and one
valid entry (`"h"`): the invalid one renders as the placeholder, the valid
one as its text, and both appear in the rendered list. -/
theorem c2_utf8_placeholder_witness :
    utf8Decode [255] = none ∧
    alpnElem [255] = ("<error decoding utf8 string>") ∧
    alpnElem [104] = ("h") ∧
    strHas (renderTlsExtension emptyReg emptyReg emptyReg (.ALPN [[255], [104]]))
      (rustStrDebug (alpnElem [255])) = true ∧
    strHas (renderTlsExtension emptyReg emptyReg emptyReg (.ALPN [[255], [104]]))
      (rustStrDebug (alpnElem [104])) = true := by
  have h := c2_utf8_placeholder emptyReg emptyReg emptyReg [] [[255], [104]]
  refine ⟨rfl, h.2.2.2.2.1 [255] rfl, rfl, ?_, ?_⟩
  · exact h.2.2.2.2.2 [255] (by simp)
  · exact h.2.2.2.2.2 [104] (by simp)

end TlsDebug
